import Mathlib

/-!
Verification of the gravity simulation (src/gravity_sim.cpp) against its
specification.  The physics core of the program is shallowly embedded here:
floating-point values are modelled by exact rationals, and the square/cube
roots computed by the C++ `sqrt`/`pow(x, 1/2)`/`pow(x, 1/3)` calls are
modelled by `ratSqrt`/`ratCbrt`, which agree with the IEEE operations on
arguments that are perfect squares/cubes of rationals (every concrete input
evaluated in a theorem below keeps all root arguments in that exact range)
and return 0 on other arguments.  NaN produced by the grid depth formula is
modelled by `Option.none` in the grid embedding further down.
-/

set_option maxRecDepth 8000

namespace GravitySim

/-- Binary-search integer square root (floor), structurally recursive on a
fuel argument so that kernel evaluation of `decide` terminates quickly.
Invariant of each call: `lo*lo ≤ n < hi*hi`. -/
def natSqrtB (n : ℕ) : ℕ → ℕ → ℕ → ℕ
  | lo, _hi, 0 => lo
  | lo, hi, fuel+1 =>
    if hi ≤ lo + 1 then lo
    else
      let mid := (lo + hi) / 2
      if mid * mid ≤ n then natSqrtB n mid hi fuel else natSqrtB n lo mid fuel

/-- Integer square root used by the rational root below. -/
def natSqrt (n : ℕ) : ℕ := natSqrtB n 0 (n + 1) 64

/-- Binary-search integer cube root (floor), fuel-based like `natSqrtB`. -/
def natCbrtB (n : ℕ) : ℕ → ℕ → ℕ → ℕ
  | lo, _hi, 0 => lo
  | lo, hi, fuel+1 =>
    if hi ≤ lo + 1 then lo
    else
      let mid := (lo + hi) / 2
      if mid * mid * mid ≤ n then natCbrtB n mid hi fuel else natCbrtB n lo mid fuel

/-- Integer cube root used by the rational root below. -/
def natCbrt (n : ℕ) : ℕ := natCbrtB n 0 (n + 1) 64

/-- Rational square root: exact on squares of non-negative rationals
(where the C++ `sqrt` is also exact up to float rounding), 0 elsewhere. -/
def ratSqrt (q : ℚ) : ℚ :=
  let n := natSqrt q.num.toNat
  let d := natSqrt q.den
  if 0 ≤ q.num ∧ n * n = q.num.toNat ∧ d * d = q.den then (n : ℚ) / (d : ℚ) else 0

/-- Rational cube root: exact on cubes of non-negative rationals, 0 elsewhere. -/
def ratCbrt (q : ℚ) : ℚ :=
  let n := natCbrt q.num.toNat
  let d := natCbrt q.den
  if 0 ≤ q.num ∧ n * n * n = q.num.toNat ∧ d * d * d = q.den then (n : ℚ) / (d : ℚ) else 0

/-- Gravitational constant, the literal `6.6743e-11` of gravity_sim.cpp line 75. -/
def G : ℚ := 66743 / 10 ^ 15

/-- Speed of light, the literal `299792458.0` of gravity_sim.cpp line 76. -/
def c : ℚ := 299792458

/-- Visual scale factor, the literal `30000.0f` (`sizeRatio`, line 78). -/
def sizeRatio : ℚ := 30000

/-- The rational value of the pi literal `3.14159265359` used by the source. -/
def piLit : ℚ := 314159265359 / 10 ^ 11

/-- Default mass for newly created objects, `pow(10, 22)` (line 77). -/
def initMass : ℚ := 10 ^ 22

/-- A 3-component vector of (exact) floats, glm::vec3 in the source. -/
@[ext] structure Vec3 where
  x : ℚ
  y : ℚ
  z : ℚ
deriving DecidableEq

instance : Zero Vec3 := ⟨⟨0, 0, 0⟩⟩
instance : Add Vec3 := ⟨fun a b => ⟨a.x + b.x, a.y + b.y, a.z + b.z⟩⟩
instance : SMul ℚ Vec3 := ⟨fun r v => ⟨r * v.x, r * v.y, r * v.z⟩⟩

/-- A celestial body: the physics-relevant fields of the C++ `Object` class.
`meshRadius` records the radius from which the cached sphere mesh (the VBO
contents produced by `Draw`/`UpdateVertices`) was last generated; rendering
hints (`color`, `glow`) and the OpenGL handles are omitted. -/
@[ext] structure Object where
  position : Vec3
  velocity : Vec3
  Initalizing : Bool
  Launched : Bool
  mass : ℚ
  density : ℚ
  radius : ℚ
  meshRadius : ℚ
deriving DecidableEq

/-- The radius formula of the source:
`pow(((3*mass/density)/(4*3.14159265359)), 1/3) / scale`. -/
def radiusFrom (mass density scale : ℚ) : ℚ :=
  ratCbrt ((3 * mass / density) / (4 * piLit)) / scale

namespace Object

/-- The `Object` constructor (gravity_sim.cpp lines 121-134): stores the
physical fields, derives the radius with divisor `sizeRatio`, and generates
the sphere mesh from that radius. -/
def create (initPosition initVelocity : Vec3) (mass : ℚ) (density : ℚ := 3344) : Object :=
  { position := initPosition
    velocity := initVelocity
    Initalizing := false
    Launched := false
    mass := mass
    density := density
    radius := radiusFrom mass density sizeRatio
    meshRadius := radiusFrom mass density sizeRatio }

/-- `Object::UpdatePos` (lines 175-180): position += velocity / 94 per
component, then the radius is recomputed with divisor `sizeRatio`. -/
def UpdatePos (o : Object) : Object :=
  { o with
    position := ⟨o.position.x + o.velocity.x / 94,
                 o.position.y + o.velocity.y / 94,
                 o.position.z + o.velocity.z / 94⟩
    radius := radiusFrom o.mass o.density sizeRatio }

/-- `Object::UpdateVertices` (lines 185-190): regenerates the sphere mesh
from the current radius. -/
def UpdateVertices (o : Object) : Object :=
  { o with meshRadius := o.radius }

/-- `Object::accelerate` (lines 202-206): velocity += acceleration / 96 per
component. -/
def accelerate (o : Object) (x y z : ℚ) : Object :=
  { o with
    velocity := ⟨o.velocity.x + x / 96,
                 o.velocity.y + y / 96,
                 o.velocity.z + z / 96⟩ }

/-- `Object::CheckCollision` (lines 211-220): returns the damping factor
`-0.2` when the spheres overlap (`other.radius + this->radius > distance`),
else `1.0`. -/
def CheckCollision (o other : Object) : ℚ :=
  let dx := other.position.x - o.position.x
  let dy := other.position.y - o.position.y
  let dz := other.position.z - o.position.z
  let distance := ratSqrt (dx * dx + dy * dy + dz * dz)
  if other.radius + o.radius > distance then -1/5 else 1

end Object

/-- One iteration of the inner force loop of `main` (lines 310-332) for a
fixed body `obj` against a partner `obj2`.  The pointer-distinctness test
`&obj2 != &obj` is handled by the index test in `innerLoop` below; the
remaining guard and the body are translated literally: when both bodies are
out of `Creating` state and the separation is positive, the gravitational
acceleration is applied only when unpaused (line 324), after which the
collision damping factor is applied to the velocity unconditionally
(line 328). -/
def processPair (pause : Bool) (obj obj2 : Object) : Object :=
  if obj.Initalizing = false ∧ obj2.Initalizing = false then
    let dx := obj2.position.x - obj.position.x
    let dy := obj2.position.y - obj.position.y
    let dz := obj2.position.z - obj.position.z
    let distance := ratSqrt (dx * dx + dy * dy + dz * dz)
    if 0 < distance then
      let distm := distance * 1000
      let Gforce := (G * obj.mass * obj2.mass) / (distm * distm)
      let acc1 := Gforce / obj.mass
      let obj' := if pause = true then obj
                  else obj.accelerate (dx / distance * acc1) (dy / distance * acc1)
                       (dz / distance * acc1)
      { obj' with velocity := (obj'.CheckCollision obj2) • obj'.velocity }
    else obj
  else obj

/-- The inner force/collision loop of `main` for body number `i`: the body
is folded through `processPair` against every entry of the (indexed) body
list except itself. -/
def innerLoop (pause : Bool) (obj : Object) (others : List (ℕ × Object)) (i : ℕ) : Object :=
  others.foldl (fun o jb => if jb.1 = i then o else processPair pause o jb.2) obj

/-- The tail of the per-body frame work (lines 334-343): a body in
`Creating` state gets its radius recomputed with the divisor `1000000` and
its mesh regenerated; then, when not paused, `UpdatePos` runs. -/
def finishObject (pause : Bool) (o : Object) : Object :=
  let o1 := if o.Initalizing = true then
      Object.UpdateVertices { o with radius := radiusFrom o.mass o.density 1000000 }
    else o
  if pause = true then o1 else o1.UpdatePos

/-- The complete per-frame update that `main` performs on the body with
index `i`, given the body list as it stands when that body is processed. -/
def stepObjectAt (pause : Bool) (bs : List Object) (i : ℕ) (obj : Object) : Object :=
  finishObject pause (innerLoop pause obj bs.enum i)

/-- One iteration of the outer per-body loop: body `i` is replaced in the
live list by its updated value (the C++ loop mutates `objs[i]` in place, so
later bodies observe the already-updated earlier ones). -/
def stepUpd (pause : Bool) (cur : List Object) (i : ℕ) : List Object :=
  match cur.get? i with
  | some obj => cur.set i (stepObjectAt pause cur i obj)
  | none => cur

/-- One frame of the physics portion of the main loop (lines 306-360):
every body, in index order, runs its force/collision inner loop and its
position/radius update against the live list. -/
def stepFrame (pause : Bool) (bs : List Object) : List Object :=
  (List.range bs.length).foldl (stepUpd pause) bs

/-! ## Creation workflow (lines 280-293, 489-605) -/

/-- The per-frame growth applied to `objs.back()` while it is in `Creating`
state and the right mouse button is held (lines 282-291): mass is
multiplied by `1 + 1*deltaTime`, the radius is recomputed with divisor
`sizeRatio`, and the mesh is regenerated via `UpdateVertices`. -/
def growObj (dt : ℚ) (o : Object) : Object :=
  Object.UpdateVertices
    { o with
      mass := o.mass * (1 + 1 * dt)
      radius := radiusFrom (o.mass * (1 + 1 * dt)) o.density sizeRatio }

/-- The growth branch of the main loop (lines 280-293): it runs only when
the body list is non-empty, the last body is `Creating`, and the grow event
(right mouse button) is held. -/
def growLast (rightHeld : Bool) (dt : ℚ) (bs : List Object) : List Object :=
  match bs.getLast? with
  | some b =>
    if b.Initalizing = true ∧ rightHeld = true then bs.dropLast ++ [growObj dt b]
    else bs
  | none => bs

/-- The element index that `keyCallback` (line 492) and the release branch
of `mouseButtonCallback` (lines 595-598) read the "last created body" at:
`objs.size() - 1` evaluated in 64-bit `size_t` arithmetic, with no
emptiness guard. -/
def lastBodyIndex (n : ℕ) : ℕ := (n + 2 ^ 64 - 1) % 2 ^ 64

/-- The bounds check that `std::vector::operator[]` never performs: the
accessed index is in range exactly when it is below the vector size. -/
def lastBodyIndexInRange (n : ℕ) : Prop := lastBodyIndex n < n

/-- The pause logic of `keyCallback` (lines 517-522): `glfwGetKey` for key
K returns either `GLFW_PRESS` (the key is held, modelled `kHeld = true`) or
`GLFW_RELEASE`; the first `if` sets the flag when held, the second clears
it when not held. -/
def keyCallbackPause (kHeld : Bool) (p : Bool) : Bool :=
  let p1 := if kHeld = true then true else p
  if kHeld = false then false else p1

/-- Initial value of the global `pause` flag (line 64). -/
def pauseInit : Bool := true

/-! ## Grid deformation engine (lines 687-726)

The grid vertex buffer is modelled as a list of vertices whose vertical
component is an `Option ℚ`: `none` models an IEEE NaN (the source clamps
nothing, so `sqrt` of a negative argument yields NaN, which every later
arithmetic operation propagates).  The horizontal components are never
written by `UpdateGridVertices` and stay plain rationals. -/

/-- One grid vertex: three floats, of which only the vertical component can
become NaN. -/
@[ext] structure GridVert where
  x : ℚ
  y : Option ℚ
  z : ℚ
deriving DecidableEq

/-- NaN-propagating addition of possibly-NaN floats. -/
def oadd : Option ℚ → Option ℚ → Option ℚ
  | some a, some b => some (a + b)
  | _, _ => none

/-- NaN-propagating square root: NaN on NaN input or negative argument,
otherwise the (exact-on-perfect-squares) rational square root. -/
def osqrt : Option ℚ → Option ℚ
  | some q => if q < 0 then none else some (ratSqrt q)
  | none => none

/-- The depth contribution a single body adds to `totalDisplacement.y` for
one vertex (lines 713-721): with `rs = 2*G*mass/c^2` and `distance_m` the
vertex-to-body distance times 1000, the term is
`(2 * sqrt(rs * (distance_m - rs))) * 2`, with no guard on the sign of the
square-root argument. -/
def vertDepthContrib (obj : Object) (v : GridVert) : Option ℚ :=
  let tox := obj.position.x - v.x
  let toz := obj.position.z - v.z
  let dist2 : Option ℚ := v.y.map fun vy =>
    let toy := obj.position.y - vy
    tox * tox + toy * toy + toz * toz
  let distance := osqrt dist2
  let distm := distance.map (· * 1000)
  let rs := (2 * G * obj.mass) / (c * c)
  let dz := (osqrt (distm.map fun dm => rs * (dm - rs))).map (2 * ·)
  dz.map (· * 2)

/-- The centre-of-mass accumulation of lines 690-697: bodies in `Creating`
state are skipped; returns (mass-weighted y sum, total mass). -/
def gridCom (objs : List Object) : ℚ × ℚ :=
  objs.foldl
    (fun acc o =>
      if o.Initalizing = true then acc
      else (acc.1 + o.mass * o.position.y, acc.2 + o.mass))
    (0, 0)

/-- The `originalMaxY` scan of lines 700-703.  The accumulator starts at
the `-infinity` initialiser, modelled by `none` here; `std::max(acc, y)`
expands to `(acc < y) ? y : acc`, so a NaN `y` leaves the accumulator
unchanged and a real `y` replaces the `-infinity` start. -/
def gridMaxY (vs : List GridVert) : Option ℚ :=
  vs.foldl
    (fun m v =>
      match v.y with
      | none => m
      | some y =>
        match m with
        | none => some y
        | some a => some (max a y))
    none

/-- The per-vertex write of lines 709-723: the new vertical component is
the summed depth contributions of all bodies plus `-abs(verticalShift)`;
the previous vertical value enters only through the distances and the
shift. -/
def updateGridVertex (objs : List Object) (negAbsShift : Option ℚ) (v : GridVert) : GridVert :=
  let total := objs.foldl (fun acc o => oadd acc (vertDepthContrib o v)) (some 0)
  { v with y := oadd total negAbsShift }

/-- `UpdateGridVertices` (lines 687-726): computes the mass-weighted mean
vertical position of the non-`Creating` bodies, the maximal vertical
component of the incoming buffer, their difference as `verticalShift`, and
rewrites every vertex's vertical component.  A `none` shift stands for the
non-finite value the C++ code would produce from an empty or all-NaN
buffer. -/
def UpdateGridVertices (vs : List GridVert) (objs : List Object) : List GridVert :=
  let com := gridCom objs
  let comY := if 0 < com.2 then com.1 / com.2 else com.1
  let maxY := gridMaxY vs
  let verticalShift : Option ℚ := maxY.map fun m => comY - m
  let negAbsShift : Option ℚ := verticalShift.map fun s => -|s|
  vs.map (updateGridVertex objs negAbsShift)

/-! ## Analysis definitions

The following definitions name the quantities the inner force/collision
loop computes for one pair, so that theorems can speak about the damping
factor and the gravity contribution of each processed pair separately.
They repeat the corresponding expressions of `processPair` verbatim. -/

/-- Distance between the two bodies of a processed pair, as both the force
loop (line 315) and `CheckCollision` (line 215) compute it. -/
def pairDist (obj obj2 : Object) : ℚ :=
  let dx := obj2.position.x - obj.position.x
  let dy := obj2.position.y - obj.position.y
  let dz := obj2.position.z - obj.position.z
  ratSqrt (dx * dx + dy * dy + dz * dz)

/-- The velocity factor a processed pair applies to body `obj`: the
`CheckCollision` damping factor when the pair passes the state and
positive-separation guards, and `1` (no change) otherwise. -/
def pairFactor (obj obj2 : Object) : ℚ :=
  if obj.Initalizing = false ∧ obj2.Initalizing = false ∧ 0 < pairDist obj obj2 then
    obj.CheckCollision obj2
  else 1

/-- The velocity increment a processed pair adds to body `obj` before the
damping factor is applied: the gravitational acceleration divided by the
fixed integration constant 96, or zero when paused or guarded out. -/
def gravityDelta (pause : Bool) (obj obj2 : Object) : Vec3 :=
  if pause = false ∧ obj.Initalizing = false ∧ obj2.Initalizing = false
      ∧ 0 < pairDist obj obj2 then
    let dx := obj2.position.x - obj.position.x
    let dy := obj2.position.y - obj.position.y
    let dz := obj2.position.z - obj.position.z
    let distance := pairDist obj obj2
    let distm := distance * 1000
    let acc1 := (G * obj.mass * obj2.mass) / (distm * distm) / obj.mass
    ⟨dx / distance * acc1 / 96, dy / distance * acc1 / 96, dz / distance * acc1 / 96⟩
  else 0

/-- Product of the damping factors body `i` receives from one pass of the
inner loop over the indexed body list. -/
def dampProd (obj : Object) (i : ℕ) : List (ℕ × Object) → ℚ
  | [] => 1
  | jb :: l => (if jb.1 = i then 1 else pairFactor obj jb.2) * dampProd obj i l

/-- The part of the inner loop's velocity update that does not scale the
incoming velocity: each pair's gravity increment, scaled by its own damping
factor and by the damping factors of all later pairs. -/
def resid (pause : Bool) (obj : Object) (i : ℕ) : List (ℕ × Object) → Vec3
  | [] => 0
  | jb :: l =>
    if jb.1 = i then resid pause obj i l
    else
      dampProd obj i l • (pairFactor obj jb.2 • gravityDelta pause obj jb.2)
        + resid pause obj i l

/-- Number of partners that overlap body `i` (and pass the pair guards) in
one pass of the inner loop. -/
def overlapCount (obj : Object) (i : ℕ) (others : List (ℕ × Object)) : ℕ :=
  others.countP fun jb => decide (jb.1 ≠ i ∧ pairFactor obj jb.2 = -1/5)

/-! ## Concrete states evaluated by the theorems below

All root arguments arising in these states are perfect squares/cubes of
rationals, so `ratSqrt`/`ratCbrt` coincide there with the C++ root
functions (up to float rounding, which none of the compared quantities
depends on). -/

/-- A launched body with overlapping-size radius, moving in `z`. -/
def bodyP0 : Object :=
  { position := ⟨0, 0, 0⟩, velocity := ⟨0, 0, 1⟩, Initalizing := false, Launched := true,
    mass := 10 ^ 22, density := 5515, radius := 1, meshRadius := 1 }

/-- A second launched body one unit away from `bodyP0`, overlapping it
(radius sum 2 exceeds distance 1). -/
def bodyP1 : Object :=
  { position := ⟨1, 0, 0⟩, velocity := ⟨0, 0, -1⟩, Initalizing := false, Launched := true,
    mass := 10 ^ 22, density := 5515, radius := 1, meshRadius := 1 }

/-- Two bodies at the same point (zero separation), distinct velocities. -/
def bodyQ0 : Object :=
  { position := ⟨5, 6, 7⟩, velocity := ⟨0, 0, 3⟩, Initalizing := false, Launched := true,
    mass := 10 ^ 22, density := 5515, radius := 1, meshRadius := 1 }

/-- Second body coinciding with `bodyQ0`. -/
def bodyQ1 : Object :=
  { position := ⟨5, 6, 7⟩, velocity := ⟨2, 0, 0⟩, Initalizing := false, Launched := true,
    mass := 10 ^ 22, density := 5515, radius := 1, meshRadius := 1 }

/-- The central star of the initial scene (mass `1.989e25`, line 258). -/
def star2 : Object :=
  { position := ⟨0, 0, -350⟩, velocity := 0, Initalizing := false, Launched := true,
    mass := 1989 * 10 ^ 22, density := 5515, radius := 1, meshRadius := 1 }

/-- A grid vertex whose distance to `star2` is `1e-6` simulation units,
i.e. `1e-3` metres, closer than the star's Schwarzschild radius of about
`0.0295` metres. -/
def vert2 : GridVert := ⟨1 / 10 ^ 6, some 0, -350⟩

/-- A body in `Creating` state whose mass makes the cube-root argument of
the radius formula the perfect cube `27e12`, so the radius formula gives
exactly `1` at scale `sizeRatio` and `3/100` at scale `1000000`. -/
def bodyC : Object :=
  { position := ⟨0, 0, 0⟩, velocity := 0, Initalizing := true, Launched := false,
    mass := 113097335529240, density := 1, radius := 1, meshRadius := 1 }

/-- Mass chosen so that `G * m6 = 4512e6` exactly, making every quantity in
the two-body step below a small rational. -/
def m6 : ℚ := 4512 * 10 ^ 21 / 66743

/-- Density making the cube-root argument of the radius formula exactly 1. -/
def den6 : ℚ := 3 * m6 / (4 * piLit)

/-- First body of the equal-mass rest pair, at the origin. -/
def body6A : Object :=
  { position := ⟨0, 0, 0⟩, velocity := 0, Initalizing := false, Launched := true,
    mass := m6, density := den6, radius := 1 / 30000, meshRadius := 1 / 30000 }

/-- Second body of the equal-mass rest pair, at distance 1 on the x-axis. -/
def body6B : Object :=
  { position := ⟨1, 0, 0⟩, velocity := 0, Initalizing := false, Launched := true,
    mass := m6, density := den6, radius := 1 / 30000, meshRadius := 1 / 30000 }

/-- Mass whose Schwarzschild radius `2*G*m/c^2` is exactly 1 metre. -/
def m7 : ℚ := 299792458 ^ 2 * 10 ^ 15 / 133486

/-- A body `1/1000` simulation units (one metre) above the origin, with
Schwarzschild radius exactly one metre. -/
def body7 : Object :=
  { position := ⟨0, 1 / 1000, 0⟩, velocity := 0, Initalizing := false, Launched := true,
    mass := m7, density := 5515, radius := 1, meshRadius := 1 }

/-- A one-vertex grid buffer at the origin. -/
def grid7 : List GridVert := [⟨0, some 0, 0⟩]

end GravitySim

namespace GravitySim

/-! ## Basic algebra lemmas for the vector type -/

namespace Vec3

@[simp] lemma zero_x : (0 : Vec3).x = 0 := rfl
@[simp] lemma zero_y : (0 : Vec3).y = 0 := rfl
@[simp] lemma zero_z : (0 : Vec3).z = 0 := rfl
@[simp] lemma add_x (a b : Vec3) : (a + b).x = a.x + b.x := rfl
@[simp] lemma add_y (a b : Vec3) : (a + b).y = a.y + b.y := rfl
@[simp] lemma add_z (a b : Vec3) : (a + b).z = a.z + b.z := rfl
@[simp] lemma smul_x (r : ℚ) (v : Vec3) : (r • v).x = r * v.x := rfl
@[simp] lemma smul_y (r : ℚ) (v : Vec3) : (r • v).y = r * v.y := rfl
@[simp] lemma smul_z (r : ℚ) (v : Vec3) : (r • v).z = r * v.z := rfl

lemma one_smul_v (v : Vec3) : (1 : ℚ) • v = v := by ext <;> simp

lemma smul_smul_v (a b : ℚ) (v : Vec3) : a • (b • v) = (a * b) • v := by
  ext <;> simp <;> ring

lemma smul_zero_v (a : ℚ) : a • (0 : Vec3) = 0 := by ext <;> simp

lemma add_zero_v (v : Vec3) : v + 0 = v := by ext <;> simp

end Vec3

/-! ## The pair update in factored form -/

/-- `processPair` never changes anything but the velocity, and the velocity
update is one multiplication by the pair's damping factor applied to the
incoming velocity plus the pair's gravity increment. -/
lemma processPair_eq (p : Bool) (obj obj2 : Object) :
    processPair p obj obj2
      = { obj with velocity := pairFactor obj obj2 • (obj.velocity + gravityDelta p obj obj2) } := by
  by_cases h1 : obj.Initalizing = false ∧ obj2.Initalizing = false
  · by_cases h2 : 0 < pairDist obj obj2
    · have h2' := h2
      simp only [pairDist] at h2'
      by_cases h3 : pairDist obj obj2 < obj2.radius + obj.radius
      · have h3' := h3
        simp only [pairDist] at h3'
        cases p with
        | true =>
          simp [processPair, pairFactor, gravityDelta, pairDist, Object.CheckCollision,
            Object.accelerate, h1.1, h1.2, h2, h2', h3, h3']
          rw [Vec3.add_zero_v]
        | false =>
          simp [processPair, pairFactor, gravityDelta, pairDist, Object.CheckCollision,
            Object.accelerate, h1.1, h1.2, h2, h2', h3, h3']
          ext <;> simp
      · have h3' := h3
        simp only [pairDist] at h3'
        cases p with
        | true =>
          simp [processPair, pairFactor, gravityDelta, pairDist, Object.CheckCollision,
            Object.accelerate, h1.1, h1.2, h2, h2', h3, h3']
          rw [Vec3.add_zero_v]
        | false =>
          simp [processPair, pairFactor, gravityDelta, pairDist, Object.CheckCollision,
            Object.accelerate, h1.1, h1.2, h2, h2', h3, h3']
          ext <;> simp
    · have h2' := h2
      simp only [pairDist] at h2'
      simp [processPair, pairFactor, gravityDelta, pairDist, Object.CheckCollision,
        h1.1, h1.2, h2, h2']
      ext <;> simp [h1.1, h1.2]
  · have hf : ¬ (obj.Initalizing = false ∧ obj2.Initalizing = false ∧ 0 < pairDist obj obj2) :=
      fun h => h1 ⟨h.1, h.2.1⟩
    have hd : ¬ (p = false ∧ obj.Initalizing = false ∧ obj2.Initalizing = false
        ∧ 0 < pairDist obj obj2) := fun h => h1 ⟨h.2.1, h.2.2.1⟩
    simp only [processPair, pairFactor, gravityDelta, if_neg h1, if_neg hf, if_neg hd]
    ext <;> simp

/-- The pair factor reads only position, radius and creation flags, never
the velocity. -/
lemma pairFactor_updVel (o : Object) (w : Vec3) (b : Object) :
    pairFactor { o with velocity := w } b = pairFactor o b := rfl

/-- The gravity increment reads only position, mass and creation flags,
never the velocity. -/
lemma gravityDelta_updVel (p : Bool) (o : Object) (w : Vec3) (b : Object) :
    gravityDelta p { o with velocity := w } b = gravityDelta p o b := rfl

lemma dampProd_updVel (o : Object) (w : Vec3) (i : ℕ) :
    ∀ l, dampProd { o with velocity := w } i l = dampProd o i l := by
  intro l
  induction l with
  | nil => rfl
  | cons jb l ih => simp [dampProd, ih, pairFactor_updVel]

lemma resid_updVel (p : Bool) (o : Object) (w : Vec3) (i : ℕ) :
    ∀ l, resid p { o with velocity := w } i l = resid p o i l := by
  intro l
  induction l with
  | nil => rfl
  | cons jb l ih =>
    simp [resid, ih, pairFactor_updVel, gravityDelta_updVel, dampProd_updVel]

/-- The factored view of the whole inner loop: the velocity of body `i`
after its pass is its incoming velocity scaled by the product of all the
damping factors, plus the accumulated gravity residue; no other field
changes. -/
lemma innerLoop_eq (p : Bool) (i : ℕ) :
    ∀ (l : List (ℕ × Object)) (obj : Object),
      innerLoop p obj l i
        = { obj with velocity := dampProd obj i l • obj.velocity + resid p obj i l } := by
  intro l
  induction l with
  | nil =>
    intro obj
    show obj = _
    ext <;> simp [dampProd, resid]
  | cons jb l ih =>
    intro obj
    by_cases hj : jb.1 = i
    · have hstep : innerLoop p obj (jb :: l) i = innerLoop p obj l i := by
        simp [innerLoop, hj]
      rw [hstep, ih]
      simp [dampProd, resid, hj]
    · have hstep : innerLoop p obj (jb :: l) i = innerLoop p (processPair p obj jb.2) l i := by
        simp [innerLoop, hj]
      rw [hstep, processPair_eq, ih]
      simp only [dampProd_updVel, resid_updVel]
      simp only [dampProd, resid, if_neg hj]
      ext <;> simp <;> ring

end GravitySim

namespace GravitySim

/-! ## Values and meaning of the damping factor -/

/-- `CheckCollision` returns only the damping factor or `1`. -/
lemma CheckCollision_values (o b : Object) :
    o.CheckCollision b = -1/5 ∨ o.CheckCollision b = 1 := by
  unfold Object.CheckCollision
  dsimp only
  split
  · exact Or.inl rfl
  · exact Or.inr rfl

/-- A pair factor is either the damping factor or `1`. -/
lemma pairFactor_values (o b : Object) :
    pairFactor o b = -1/5 ∨ pairFactor o b = 1 := by
  unfold pairFactor
  split
  · exact CheckCollision_values o b
  · exact Or.inr rfl

/-- The pair factor is the damping factor `-0.2` exactly when both bodies
are out of `Creating` state, the separation is positive, and the distance
is below the sum of the radii; otherwise it is `1`. -/
lemma pairFactor_spec (o b : Object) :
    pairFactor o b =
      if o.Initalizing = false ∧ b.Initalizing = false ∧ 0 < pairDist o b
          ∧ pairDist o b < b.radius + o.radius
        then -1/5 else 1 := by
  by_cases h1 : o.Initalizing = false ∧ b.Initalizing = false ∧ 0 < pairDist o b
  · by_cases h3 : pairDist o b < b.radius + o.radius
    · have h3' := h3
      simp only [pairDist] at h3'
      simp [pairFactor, Object.CheckCollision, pairDist, h1, h1.1, h1.2.1, h1.2.2, h3, h3']
    · have h3' := h3
      simp only [pairDist] at h3'
      simp [pairFactor, Object.CheckCollision, pairDist, h1, h1.1, h1.2.1, h1.2.2, h3, h3']
  · rw [pairFactor, if_neg h1, if_neg (fun h => h1 ⟨h.1, h.2.1, h.2.2.1⟩)]

/-- The inner-loop damping product is the factor `-0.2` raised to the
number of overlapping partners: one application per overlapping pair,
compounding multiplicatively. -/
lemma dampProd_pow (obj : Object) (i : ℕ) :
    ∀ l, dampProd obj i l = (-1/5 : ℚ) ^ overlapCount obj i l := by
  intro l
  induction l with
  | nil => simp [dampProd, overlapCount]
  | cons jb l ih =>
    by_cases hj : jb.1 = i
    · simp [dampProd, overlapCount, List.countP_cons, hj, ih]
    · rcases pairFactor_values obj jb.2 with hf | hf
      · simp [dampProd, overlapCount, List.countP_cons, hj, hf, ih, pow_succ, mul_comm]
      · have : ¬ (jb.1 ≠ i ∧ pairFactor obj jb.2 = -1/5) := by
          intro hcon
          rw [hf] at hcon
          norm_num at hcon
        simp [dampProd, overlapCount, List.countP_cons, hj, hf, ih, this]
        norm_num

/-! ## Field preservation through one body's frame work -/

lemma gravityDelta_true (o b : Object) : gravityDelta true o b = 0 := by
  unfold gravityDelta
  rw [if_neg]
  intro h
  exact absurd h.1 (by simp)

/-- While paused there is no gravity residue: the inner loop only scales
the velocity. -/
lemma resid_true (obj : Object) (i : ℕ) :
    ∀ l, resid true obj i l = 0 := by
  intro l
  induction l with
  | nil => rfl
  | cons jb l ih =>
    by_cases hj : jb.1 = i
    · simp [resid, hj, ih]
    · simp [resid, hj, ih, gravityDelta_true, Vec3.smul_zero_v, Vec3.add_zero_v]

lemma finishObject_velocity (p : Bool) (o : Object) :
    (finishObject p o).velocity = o.velocity := by
  by_cases hI : o.Initalizing = true <;> cases p <;>
    simp [finishObject, Object.UpdateVertices, Object.UpdatePos, hI]

lemma finishObject_mass (p : Bool) (o : Object) :
    (finishObject p o).mass = o.mass := by
  by_cases hI : o.Initalizing = true <;> cases p <;>
    simp [finishObject, Object.UpdateVertices, Object.UpdatePos, hI]

lemma finishObject_density (p : Bool) (o : Object) :
    (finishObject p o).density = o.density := by
  by_cases hI : o.Initalizing = true <;> cases p <;>
    simp [finishObject, Object.UpdateVertices, Object.UpdatePos, hI]

lemma finishObject_Initalizing (p : Bool) (o : Object) :
    (finishObject p o).Initalizing = o.Initalizing := by
  by_cases hI : o.Initalizing = true <;> cases p <;>
    simp [finishObject, Object.UpdateVertices, Object.UpdatePos, hI]

lemma finishObject_position_paused (o : Object) :
    (finishObject true o).position = o.position := by
  by_cases hI : o.Initalizing = true <;>
    simp [finishObject, Object.UpdateVertices, hI]

lemma finishObject_radius_paused_creating (o : Object) (hI : o.Initalizing = true) :
    (finishObject true o).radius = radiusFrom o.mass o.density 1000000 := by
  simp [finishObject, Object.UpdateVertices, hI]

lemma finishObject_radius_unpaused (o : Object) :
    (finishObject false o).radius = radiusFrom o.mass o.density sizeRatio := by
  by_cases hI : o.Initalizing = true <;>
    simp [finishObject, Object.UpdateVertices, Object.UpdatePos, hI]

lemma finishObject_meshRadius_creating (p : Bool) (o : Object) (hI : o.Initalizing = true) :
    (finishObject p o).meshRadius = radiusFrom o.mass o.density 1000000 := by
  cases p <;> simp [finishObject, Object.UpdateVertices, Object.UpdatePos, hI]

lemma finishObject_radius_paused_noncreating (o : Object) (hI : o.Initalizing = false) :
    (finishObject true o).radius = o.radius := by
  simp [finishObject, hI]

lemma stepObjectAt_velocity (p : Bool) (bs : List Object) (i : ℕ) (obj : Object) :
    (stepObjectAt p bs i obj).velocity
      = dampProd obj i bs.enum • obj.velocity + resid p obj i bs.enum := by
  unfold stepObjectAt
  rw [finishObject_velocity, innerLoop_eq]

lemma stepObjectAt_mass (p : Bool) (bs : List Object) (i : ℕ) (obj : Object) :
    (stepObjectAt p bs i obj).mass = obj.mass := by
  unfold stepObjectAt
  rw [finishObject_mass, innerLoop_eq]

lemma stepObjectAt_density (p : Bool) (bs : List Object) (i : ℕ) (obj : Object) :
    (stepObjectAt p bs i obj).density = obj.density := by
  unfold stepObjectAt
  rw [finishObject_density, innerLoop_eq]

lemma stepObjectAt_Initalizing (p : Bool) (bs : List Object) (i : ℕ) (obj : Object) :
    (stepObjectAt p bs i obj).Initalizing = obj.Initalizing := by
  unfold stepObjectAt
  rw [finishObject_Initalizing, innerLoop_eq]

lemma stepObjectAt_position_paused (bs : List Object) (i : ℕ) (obj : Object) :
    (stepObjectAt true bs i obj).position = obj.position := by
  unfold stepObjectAt
  rw [finishObject_position_paused, innerLoop_eq]

/-! ## Pointwise invariants of the whole frame -/

/-- Any reflexive-transitive relation that each per-body update respects is
respected pointwise by the fold of per-body updates over any index list. -/
lemma foldl_stepUpd_rel (p : Bool) (R : Object → Object → Prop)
    (hrefl : ∀ o, R o o)
    (htrans : ∀ a b c2, R a b → R b c2 → R a c2)
    (hstep : ∀ cur i o, R o (stepObjectAt p cur i o)) :
    ∀ (l : List ℕ) (bs : List Object) (i : ℕ) (obj : Object),
      bs.get? i = some obj →
      ∃ o2, (l.foldl (stepUpd p) bs).get? i = some o2 ∧ R obj o2 := by
  intro l
  induction l with
  | nil => exact fun bs i obj h => ⟨obj, h, hrefl obj⟩
  | cons a l ih =>
    intro bs i obj h
    have hone : ∃ o1, (stepUpd p bs a).get? i = some o1 ∧ R obj o1 := by
      unfold stepUpd
      cases hga : bs.get? a with
      | none => exact ⟨obj, h, hrefl obj⟩
      | some oa =>
        by_cases hia : i = a
        · subst hia
          rw [h] at hga
          cases hga
          obtain ⟨hlt, -⟩ := List.get?_eq_some.1 h
          exact ⟨stepObjectAt p bs i obj, List.get?_set_eq_of_lt _ hlt, hstep bs i obj⟩
        · exact ⟨obj, by rw [List.get?_set_ne _ _ (fun hc => hia hc.symm)]; exact h, hrefl obj⟩
    obtain ⟨o1, h1, hr1⟩ := hone
    obtain ⟨o2, h2, hr2⟩ := ih (stepUpd p bs a) i o1 h1
    exact ⟨o2, h2, htrans _ _ _ hr1 hr2⟩

/-- Masses are preserved pointwise by a whole frame, for either pause
state. -/
lemma stepFrame_mass (p : Bool) (bs : List Object) (i : ℕ) (obj : Object)
    (h : bs.get? i = some obj) :
    ∃ o2, (stepFrame p bs).get? i = some o2 ∧ o2.mass = obj.mass := by
  have := foldl_stepUpd_rel p (fun a b => b.mass = a.mass)
    (fun _ => rfl) (fun _ _ _ hab hbc => hbc.trans hab)
    (fun cur i o => stepObjectAt_mass p cur i o)
    (List.range bs.length) bs i obj h
  exact this

/-- The paused-frame relation: position, mass, density and creation state
are unchanged and the velocity is some scalar multiple of the old one. -/
lemma stepFrame_paused (bs : List Object) (i : ℕ) (obj : Object)
    (h : bs.get? i = some obj) :
    ∃ o2, (stepFrame true bs).get? i = some o2 ∧ o2.position = obj.position
      ∧ o2.mass = obj.mass ∧ o2.Initalizing = obj.Initalizing
      ∧ ∃ f : ℚ, o2.velocity = f • obj.velocity := by
  have := foldl_stepUpd_rel true
    (fun a b => b.position = a.position ∧ b.mass = a.mass
      ∧ b.Initalizing = a.Initalizing ∧ ∃ f : ℚ, b.velocity = f • a.velocity)
    (fun o => ⟨rfl, rfl, rfl, 1, (Vec3.one_smul_v o.velocity).symm⟩)
    (fun a b c2 hab hbc =>
      ⟨hbc.1.trans hab.1, hbc.2.1.trans hab.2.1, hbc.2.2.1.trans hab.2.2.1, by
        obtain ⟨f, hf⟩ := hab.2.2.2
        obtain ⟨g, hg⟩ := hbc.2.2.2
        exact ⟨g * f, by rw [hg, hf, Vec3.smul_smul_v]⟩⟩)
    (fun cur i o =>
      ⟨stepObjectAt_position_paused cur i o, stepObjectAt_mass true cur i o,
        stepObjectAt_Initalizing true cur i o, dampProd o i cur.enum, by
          rw [stepObjectAt_velocity, resid_true, Vec3.add_zero_v]⟩)
    (List.range bs.length) bs i obj h
  exact this

end GravitySim

namespace GravitySim

/-! ## Remaining helper lemmas -/

lemma ratSqrt_zero : ratSqrt 0 = 0 := by with_unfolding_all decide

lemma growLast_applies (dt : ℚ) (bs : List Object) (b : Object)
    (hlast : bs.getLast? = some b) (hI : b.Initalizing = true) :
    (growLast true dt bs).getLast? = some (growObj dt b) := by
  unfold growLast
  rw [hlast]
  dsimp only
  rw [if_pos ⟨hI, rfl⟩]
  exact List.getLast?_concat _

lemma growLast_off (dt : ℚ) (bs : List Object) : growLast false dt bs = bs := by
  unfold growLast
  cases hlast : bs.getLast? with
  | none => rfl
  | some b =>
    dsimp only
    rw [if_neg]
    intro hcon
    exact Bool.false_ne_true hcon.2

/-! ## The claims -/

/-- Claim C1, counterexample: the claim says a paused frame mutates no
body's velocity, but the collision damping of line 328 is not gated on the
pause flag: in the paused two-body overlapping state `[bodyP0, bodyP1]`,
body 0's velocity is scaled by `-0.2` and changes. -/
theorem c1_counterexample :
    ((stepFrame true [bodyP0, bodyP1]).get? 0).map Object.velocity ≠ some bodyP0.velocity := by
  with_unfolding_all decide

/-- Claim C1 as amended: while paused, a frame mutates no body's position,
mass or creation state and applies no gravitational acceleration — each
body's velocity is only rescaled (second conjunct: by exactly the product
of its collision damping factors); overlap can therefore still change a
velocity while paused. -/
theorem c1_paused_frame (bs : List Object) (i : ℕ) (obj : Object)
    (h : bs.get? i = some obj) :
    (∃ o2, (stepFrame true bs).get? i = some o2 ∧ o2.position = obj.position
      ∧ o2.mass = obj.mass ∧ o2.Initalizing = obj.Initalizing
      ∧ ∃ f : ℚ, o2.velocity = f • obj.velocity)
    ∧ (stepObjectAt true bs i obj).velocity = dampProd obj i bs.enum • obj.velocity := by
  refine ⟨stepFrame_paused bs i obj h, ?_⟩
  rw [stepObjectAt_velocity, resid_true, Vec3.add_zero_v]

/-- Witness for `c1_paused_frame` at the singleton state `[bodyP0]`. -/
theorem c1_paused_frame_witness :
    (∃ o2, (stepFrame true [bodyP0]).get? 0 = some o2 ∧ o2.position = bodyP0.position
      ∧ o2.mass = bodyP0.mass ∧ o2.Initalizing = bodyP0.Initalizing
      ∧ ∃ f : ℚ, o2.velocity = f • bodyP0.velocity)
    ∧ (stepObjectAt true [bodyP0] 0 bodyP0).velocity
        = dampProd bodyP0 0 ([bodyP0].enum) • bodyP0.velocity :=
  c1_paused_frame [bodyP0] 0 bodyP0 rfl

/-- Claim C2: the spec requires the depth contribution to be clamped to
zero when `distance_m < rs`, and no NaN to be written; the code has no such
guard (line 719).  At `vert2`, a vertex a positive distance from `star2`
but inside its Schwarzschild radius, the square-root argument is negative
and the NaN (modelled `none`) is written into the vertex's vertical
component. -/
theorem c2_nan_written :
    ((UpdateGridVertices [vert2] [star2]).get? 0).map GridVert.y = some none
    ∧ (0 : ℚ) < 1 / 10 ^ 6
    ∧ (1 / 10 ^ 6 : ℚ) * 1000 < (2 * G * star2.mass) / (c * c) := by
  with_unfolding_all decide

/-- Claim C3, counterexample: a body in `Creating` state has its radius
recomputed with divisor `1000000` (line 336), not the configured
`sizeRatio = 30000`: after one paused frame on `[bodyC]` the stored radius
differs from the claimed single-scale-factor formula. -/
theorem c3_counterexample :
    ((stepFrame true [bodyC]).get? 0).map Object.radius
      ≠ some (radiusFrom bodyC.mass bodyC.density sizeRatio) := by
  with_unfolding_all decide

/-- Claim C3 as amended: the radius is always recomputed from the current
mass by the cube-root formula, but with two scale factors: `sizeRatio` in
the constructor, in `UpdatePos` and in the growth branch, and `1000000` in
the per-frame `Creating` display update; on an unpaused frame `UpdatePos`
afterwards overwrites a Creating body's radius with the `sizeRatio` value
while the regenerated mesh keeps the `1000000`-scaled one. -/
theorem c3_radius_scale :
    (∀ pos vel m d, (Object.create pos vel m d).radius = radiusFrom m d sizeRatio
      ∧ (Object.create pos vel m d).meshRadius = radiusFrom m d sizeRatio)
    ∧ (∀ o : Object, (Object.UpdatePos o).radius = radiusFrom o.mass o.density sizeRatio)
    ∧ (∀ (dt : ℚ) (o : Object),
        (growObj dt o).radius = radiusFrom ((growObj dt o).mass) o.density sizeRatio
        ∧ (growObj dt o).meshRadius = (growObj dt o).radius)
    ∧ (∀ o : Object, o.Initalizing = true →
        (finishObject true o).radius = radiusFrom o.mass o.density 1000000
        ∧ (finishObject false o).radius = radiusFrom o.mass o.density sizeRatio
        ∧ (finishObject true o).meshRadius = radiusFrom o.mass o.density 1000000
        ∧ (finishObject false o).meshRadius = radiusFrom o.mass o.density 1000000) := by
  refine ⟨fun pos vel m d => ⟨rfl, rfl⟩, fun o => rfl, fun dt o => ⟨rfl, rfl⟩, fun o hI => ?_⟩
  refine ⟨finishObject_radius_paused_creating o hI, finishObject_radius_unpaused o,
    finishObject_meshRadius_creating true o hI, finishObject_meshRadius_creating false o hI⟩

/-- Witness for `c3_radius_scale` at the Creating body `bodyC`. -/
theorem c3_radius_scale_witness :
    (finishObject true bodyC).radius = radiusFrom bodyC.mass bodyC.density 1000000
    ∧ (finishObject false bodyC).radius = radiusFrom bodyC.mass bodyC.density sizeRatio :=
  ⟨(c3_radius_scale.2.2.2 bodyC rfl).1, (c3_radius_scale.2.2.2 bodyC rfl).2.1⟩

/-- Claim C4: both `keyCallback` (line 492) and the release branch of
`mouseButtonCallback` (line 596) read `objs[objs.size() - 1]` with no
emptiness guard; with an empty registry the `size_t` subtraction wraps to
`2^64 - 1`, an out-of-range index (undefined behaviour), rather than the
"none" the spec requires — while for any non-empty registry the index is
the last element as intended. -/
theorem c4_oob_when_empty :
    ¬ lastBodyIndexInRange 0 ∧ lastBodyIndex 0 = 2 ^ 64 - 1
    ∧ lastBodyIndexInRange 3 ∧ lastBodyIndex 3 = 2 := by
  unfold lastBodyIndexInRange lastBodyIndex
  refine ⟨by decide, by decide, by decide, by decide⟩

/-- Claim C5: in one frame, body `i`'s velocity is multiplied exactly once
per processed pair by that pair's factor: its final velocity is the
incoming velocity scaled by the product of all pair factors plus the
gravity residue (zero when paused), the product is `(-0.2)^k` for `k`
overlapping partners, and a pair's factor is `-0.2` exactly when both
bodies are non-Creating, the separation is positive and the distance is
below the sum of the radii. -/
theorem c5_damping_per_pair (p : Bool) (bs : List Object) (i : ℕ) (obj : Object) :
    (stepObjectAt p bs i obj).velocity
      = dampProd obj i bs.enum • obj.velocity + resid p obj i bs.enum
    ∧ dampProd obj i bs.enum = (-1/5 : ℚ) ^ overlapCount obj i bs.enum
    ∧ resid true obj i bs.enum = 0
    ∧ ∀ b2 : Object, pairFactor obj b2 =
        if obj.Initalizing = false ∧ b2.Initalizing = false ∧ 0 < pairDist obj b2
            ∧ pairDist obj b2 < b2.radius + obj.radius
          then -1/5 else 1 :=
  ⟨stepObjectAt_velocity p bs i obj, dampProd_pow obj i bs.enum,
    resid_true obj i bs.enum, fun b2 => pairFactor_spec obj b2⟩

/-- Claim C6, counterexample: two equal-mass bodies at rest at distance 1;
after one frame the velocities are not equal-and-opposite — body 1 ends
four times faster than body 0 (far outside floating tolerance), because
body 1's force is computed after body 0 has already moved. -/
theorem c6_counterexample :
    ((stepFrame false [body6A, body6B]).get? 1).map Object.velocity
      ≠ ((stepFrame false [body6A, body6B]).get? 0).map (fun o => (-1 : ℚ) • o.velocity) := by
  with_unfolding_all decide

/-- Claim C6 as amended: for the equal-mass rest pair the two velocities
after one frame are opposite in direction along the connecting axis, but
their magnitudes differ (47 against 188): the sequential per-body update
order breaks exact momentum conservation. -/
theorem c6_sequential_asymmetry :
    ((stepFrame false [body6A, body6B]).get? 0).map Object.velocity = some ⟨47, 0, 0⟩
    ∧ ((stepFrame false [body6A, body6B]).get? 1).map Object.velocity = some ⟨-188, 0, 0⟩
    ∧ body6A.velocity = 0 ∧ body6B.velocity = 0 ∧ body6A.mass = body6B.mass
    ∧ (47 : ℚ) < 188 := by
  refine ⟨?_, ?_, rfl, rfl, rfl, by norm_num⟩
  · with_unfolding_all decide
  · with_unfolding_all decide

/-- Claim C7, counterexample: the per-frame grid recomputation is not
idempotent — it is iterated on its own output in the main loop, and
re-applying it to the buffer it produced changes the buffer (the vertex's
new height changes the distances and the vertical shift). -/
theorem c7_counterexample :
    UpdateGridVertices (UpdateGridVertices grid7 [body7]) [body7]
      ≠ UpdateGridVertices grid7 [body7] := by
  with_unfolding_all decide

/-- Claim C7 as amended: the grid recomputation is a pure deterministic
function of the vertex buffer and the registry — two calls on equal inputs
return bit-identical buffers; it is however not idempotent (see the
counterexample), since the buffer it returns is a different input. -/
theorem c7_deterministic (vs vs' : List GridVert) (os os' : List Object)
    (h1 : vs = vs') (h2 : os = os') :
    UpdateGridVertices vs os = UpdateGridVertices vs' os' := by
  rw [h1, h2]

/-- Witness for `c7_deterministic` at the one-vertex buffer `grid7`. -/
theorem c7_deterministic_witness :
    UpdateGridVertices grid7 [body7] = UpdateGridVertices grid7 [body7] :=
  c7_deterministic grid7 grid7 [body7] [body7] rfl rfl

/-- Claim C8: while the last body is Creating and the grow event is held,
each frame multiplies its mass by `1 + 1*dt` (strictly increasing for
positive mass and dt), recomputes its radius from the new mass and
regenerates its mesh; without the grow event the frame leaves the list
unchanged, and the physics step never changes any body's mass. -/
theorem c8_growth :
    (∀ (dt : ℚ) (o : Object), (growObj dt o).mass = o.mass * (1 + 1 * dt))
    ∧ (∀ (dt : ℚ) (o : Object), 0 < dt → 0 < o.mass → o.mass < (growObj dt o).mass)
    ∧ (∀ (dt : ℚ) (o : Object),
        (growObj dt o).radius = radiusFrom ((growObj dt o).mass) o.density sizeRatio
        ∧ (growObj dt o).meshRadius = (growObj dt o).radius)
    ∧ (∀ (dt : ℚ) (bs : List Object) (b : Object), bs.getLast? = some b →
        b.Initalizing = true → (growLast true dt bs).getLast? = some (growObj dt b))
    ∧ (∀ (dt : ℚ) (bs : List Object), growLast false dt bs = bs)
    ∧ (∀ (p : Bool) (bs : List Object) (i : ℕ) (obj : Object), bs.get? i = some obj →
        ∃ o2, (stepFrame p bs).get? i = some o2 ∧ o2.mass = obj.mass) := by
  refine ⟨fun dt o => rfl, fun dt o hdt hm => ?_, fun dt o => ⟨rfl, rfl⟩,
    fun dt bs b h hI => growLast_applies dt bs b h hI,
    fun dt bs => growLast_off dt bs,
    fun p bs i obj h => stepFrame_mass p bs i obj h⟩
  have : o.mass * (1 + 1 * dt) = o.mass + o.mass * dt := by ring
  show o.mass < o.mass * (1 + 1 * dt)
  rw [this]
  nlinarith

/-- Witness for `c8_growth`: growth strictly increases `bodyC`'s mass, the
grow branch rewrites the last element, and a frame preserves masses. -/
theorem c8_growth_witness :
    bodyC.mass < (growObj 1 bodyC).mass
    ∧ (growLast true 1 [bodyC]).getLast? = some (growObj 1 bodyC)
    ∧ (∃ o2, (stepFrame false [bodyP0]).get? 0 = some o2 ∧ o2.mass = bodyP0.mass) :=
  ⟨c8_growth.2.1 1 bodyC (by norm_num) (by with_unfolding_all decide),
   c8_growth.2.2.2.1 1 [bodyC] bodyC rfl rfl,
   c8_growth.2.2.2.2.2 false [bodyP0] 0 bodyP0 rfl⟩

/-- Claim C9: a pair at zero separation is skipped entirely by the guard of
line 317 — the pair iteration returns the accelerating body unchanged, so
no force contribution (and no division by the zero distance) occurs. -/
theorem c9_zero_separation (p : Bool) (obj b : Object)
    (h : b.position = obj.position) :
    processPair p obj b = obj := by
  have hd : pairDist obj b = 0 := by
    simp [pairDist, h, sub_self, ratSqrt_zero]
  rw [processPair_eq]
  have hf : pairFactor obj b = 1 := by
    rw [pairFactor_spec, if_neg]
    intro hcon
    rw [hd] at hcon
    exact lt_irrefl 0 hcon.2.2.1
  have hdel : gravityDelta p obj b = 0 := by
    unfold gravityDelta
    rw [if_neg]
    intro hcon
    rw [hd] at hcon
    exact lt_irrefl 0 hcon.2.2.2
  rw [hf, hdel, Vec3.add_zero_v, Vec3.one_smul_v]

/-- Witness for `c9_zero_separation` at the coinciding pair
`bodyQ0`/`bodyQ1`. -/
theorem c9_zero_separation_witness :
    processPair false bodyQ0 bodyQ1 = bodyQ0 ∧ bodyQ1.position = bodyQ0.position :=
  ⟨c9_zero_separation false bodyQ0 bodyQ1 rfl, rfl⟩

/-- Claim C10: the pause flag is level-triggered by the K key — every
keyboard event sets it to exactly the K-held state (lines 517-522), the
flag starts out `true` (line 64), and the first event with K unheld clears
it. -/
theorem c10_pause_level_triggered :
    (∀ kHeld p, keyCallbackPause kHeld p = kHeld)
    ∧ pauseInit = true
    ∧ keyCallbackPause false pauseInit = false := by
  refine ⟨?_, rfl, rfl⟩
  intro kHeld p
  cases kHeld <;> rfl

end GravitySim
